import Mathlib

/-!
Shallow embedding of src/src/HW_models/NRF_AAR.c (nRF AAR hardware model):
the address-resolution engine, the register/event front-end, the timing
model, and the interrupt-mask side effects, together with proofs of the
behavioral properties stated in the specification.

Conventions of the embedding:
* bytes of memory are natural numbers reduced mod 256 at each read site
  (mirroring the uint8 loads of the C code);
* the C value TIME_NEVER is Option.none, a scheduled time t is some t;
* the C value matching_irk = -1 is Option.none, an index i >= 0 is some i;
* the AES-128 primitive (BLECrypt_if_aes_128, an external collaborator)
  is a black-box function parameter mapping a 16-byte key function and a
  16-byte block function to a 16-byte cipher function.
-/

/-- Interrupt mask bit for the END event (nRF52 register layout, bit 0). -/
def AAR_INTENSET_END_Msk : Nat := 1

/-- Interrupt mask bit for the RESOLVED event (nRF52 register layout, bit 1). -/
def AAR_INTENCLR_RESOLVED_Msk : Nat := 2

/-- Interrupt mask bit for the NOTRESOLVED event (nRF52 register layout, bit 2). -/
def AAR_INTENCLR_NOTRESOLVED_Msk : Nat := 4

/-- All-ones mask of a uint32, used to model the C bitwise complement. -/
def UINT32_MASK : Nat := 4294967295

/-- Modulus of a uint32 register. -/
def UINT32_MOD : Nat := 4294967296

/-- Result of nrf_aar_resolve: the matched key index (none if no key
matched, mirroring good_irk = -1), the returned count of keys examined,
and an instrumentation count of calls made to the AES crypto gateway. -/
structure ResolveResult where
  good_irk : Option Nat
  n_irks : Nat
  aes_calls : Nat
deriving DecidableEq

/-- External environment of the resolver: the black-box AES-128 primitive,
the byte memory pointed to by ADDRPTR (address bytes preceded by the fixed
3-byte S0+Length+S1 header), and the IRK list pointed to by IRKPTR
(irk i j is byte j of the 16-byte key at index i). -/
structure AAREnv where
  aes : (Nat → Nat) → (Nat → Nat) → (Nat → Nat)
  mem : Nat → Nat
  irk : Nat → Nat → Nat

/-- Byte i of the 6-byte address: the C code reads address_ptr = ADDRPTR + 3,
skipping the 3-byte header, and each load is a uint8. -/
def addressByte (env : AAREnv) (i : Nat) : Nat := env.mem (3 + i) % 256

/-- The 24-bit prand field: the C reads a little-endian uint32 at
address_ptr + 3 and masks it with 0xFFFFFF, keeping address bytes 3,4,5. -/
def prandOf (env : AAREnv) : Nat :=
  addressByte env 3 + addressByte env 4 * 256 + addressByte env 5 * 65536

/-- The 24-bit hash embedded in the address: little-endian uint32 read at
address_ptr masked with 0xFFFFFF, keeping address bytes 0,1,2. -/
def hashOf (env : AAREnv) : Nat :=
  addressByte env 0 + addressByte env 1 * 256 + addressByte env 2 * 65536

/-- The 16-byte AES input block: all zero except bytes 15,14,13 which hold
prand reversed to big-endian byte order. -/
def prand_buf (prand : Nat) : Nat → Nat := fun j =>
  if j = 15 then prand % 256
  else if j = 14 then prand / 256 % 256
  else if j = 13 then prand / 65536 % 256
  else 0

/-- The 16-byte key at index i, as handed to the AES primitive
(each byte a uint8 load from the IRK list). -/
def irkKey (env : AAREnv) (i : Nat) : Nat → Nat := fun j => env.irk i j % 256

/-- The 24-bit hash_check recomputed from an AES cipher output: bytes
15,14,13 of the (uint8) cipher buffer reversed back to little-endian. -/
def hashCheckOf (cipher : Nat → Nat) : Nat :=
  cipher 15 % 256 + cipher 14 % 256 * 256 + cipher 13 % 256 * 65536

/-- The recomputed 24-bit hash_check for key index i of the key list:
one AES-128 call on (key i, prand block), bytes 13..15 reassembled. -/
def keyHashCheck (env : AAREnv) (i : Nat) : Nat :=
  hashCheckOf (env.aes (irkKey env i) (prand_buf (prandOf env)))

/-- The matching loop of nrf_aar_resolve, with i the current index and the
second argument the number of remaining iterations (NIRK - i).  Each
iteration performs one AES call; on hash = hash_check it returns
(some i, i+1); after the last iteration it returns (none, i). -/
def aar_loop (env : AAREnv) (hash : Nat) : Nat → Nat → ResolveResult
  | i, 0 => ⟨none, i, 0⟩
  | i, r + 1 =>
    if hash = keyHashCheck env i then ⟨some i, i + 1, 1⟩
    else
      let rest := aar_loop env hash (i + 1) r
      ⟨rest.good_irk, rest.n_irks, rest.aes_calls + 1⟩

/-- nrf_aar_resolve: if the top 2 bits of prand are not 01 the address is
not resolvable and (none, NIRK) is returned with no AES call; otherwise
the key list is scanned in order for the first hash match. -/
def nrf_aar_resolve (env : AAREnv) (nirk : Nat) : ResolveResult :=
  if prandOf env >>> 22 ≠ 1 then ⟨none, nirk, 0⟩
  else aar_loop env (hashOf env) 0 nirk

/-- The peripheral state: firmware-visible registers (ENABLE, NIRK,
INTENSET, INTENCLR, STATUS, the three event flags) and the internal model
state (AAR_INTEN, AAR_Running, Timer_AAR, matching_irk, plus the shared
interrupt line driven by hw_irq_ctrl_set_irq). -/
structure AARState where
  ENABLE : Nat
  NIRK : Nat
  INTENSET : Nat
  INTENCLR : Nat
  STATUS : Nat
  EVENTS_END : Nat
  EVENTS_RESOLVED : Nat
  EVENTS_NOTRESOLVED : Nat
  inten : Nat
  running : Bool
  timer : Option Nat
  matching : Option Nat
  irq : Bool
deriving DecidableEq

/-- Observable micro-actions of a front-end operation, in program order:
an event flag becoming 1 (the signal_EVENTS_x functions) or the STATUS
register being written. -/
inductive AARAction where
  | setEND
  | setRESOLVED
  | setNOTRESOLVED
  | writeSTATUS (idx : Nat)
deriving DecidableEq

/-- signal_EVENTS_END: latch the END flag, publish the PPI event (the
emitted action), and raise the interrupt line if the END mask bit is set. -/
def signal_EVENTS_END (s : AARState) : AARState × List AARAction :=
  ({ s with EVENTS_END := 1,
            irq := s.irq || (s.inten &&& AAR_INTENSET_END_Msk != 0) },
   [AARAction.setEND])

/-- signal_EVENTS_RESOLVED: latch the RESOLVED flag and raise the
interrupt line if the RESOLVED mask bit is set. -/
def signal_EVENTS_RESOLVED (s : AARState) : AARState × List AARAction :=
  ({ s with EVENTS_RESOLVED := 1,
            irq := s.irq || (s.inten &&& AAR_INTENCLR_RESOLVED_Msk != 0) },
   [AARAction.setRESOLVED])

/-- signal_EVENTS_NOTRESOLVED: latch the NOTRESOLVED flag and raise the
interrupt line if the NOTRESOLVED mask bit is set. -/
def signal_EVENTS_NOTRESOLVED (s : AARState) : AARState × List AARAction :=
  ({ s with EVENTS_NOTRESOLVED := 1,
            irq := s.irq || (s.inten &&& AAR_INTENCLR_NOTRESOLVED_Msk != 0) },
   [AARAction.setNOTRESOLVED])

/-- nrf_aar_init: registers zeroed, AAR_INTEN = 0, Timer_AAR = TIME_NEVER,
AAR_Running = false; the static matching_irk is zero-initialized. -/
def nrf_aar_init : AARState :=
  { ENABLE := 0, NIRK := 0, INTENSET := 0, INTENCLR := 0, STATUS := 0,
    EVENTS_END := 0, EVENTS_RESOLVED := 0, EVENTS_NOTRESOLVED := 0,
    inten := 0, running := false, timer := none, matching := some 0,
    irq := false }

/-- nrf_aar_TASK_START: returns unchanged unless ENABLE = 0x3; otherwise
sets AAR_Running, runs the resolver synchronously (latching matching_irk)
and schedules Timer_AAR = now + 1 + 6 * n_irks. -/
def nrf_aar_TASK_START (env : AAREnv) (now : Nat) (s : AARState) : AARState :=
  if s.ENABLE ≠ 3 then s
  else
    let r := nrf_aar_resolve env s.NIRK
    { s with running := true, matching := r.good_irk,
             timer := some (now + 1 + 6 * r.n_irks) }

/-- nrf_aar_TASK_STOP: returns unchanged (no action) unless AAR_Running;
otherwise clears AAR_Running, cancels Timer_AAR and signals only END. -/
def nrf_aar_TASK_STOP (s : AARState) : AARState × List AARAction :=
  if s.running then
    let s1 := { s with running := false, timer := none }
    signal_EVENTS_END s1
  else (s, [])

/-- nrf_aar_timer_triggered: the completion callback invoked by the
scheduler at Timer_AAR; clears AAR_Running and Timer_AAR, then on a match
writes STATUS and signals RESOLVED, otherwise signals NOTRESOLVED, and
finally signals END. -/
def nrf_aar_timer_triggered (s : AARState) : AARState × List AARAction :=
  let s0 := { s with running := false, timer := none }
  match s.matching with
  | some idx =>
    let s1 := { s0 with STATUS := idx }
    let p1 := signal_EVENTS_RESOLVED s1
    let p2 := signal_EVENTS_END p1.1
    (p2.1, AARAction.writeSTATUS idx :: p1.2 ++ p2.2)
  | none =>
    let p1 := signal_EVENTS_NOTRESOLVED s0
    let p2 := signal_EVENTS_END p1.1
    (p2.1, p1.2 ++ p2.2)

/-- nrf_aar_regw_sideeffects_INTENSET: if the written INTENSET value is
nonzero, OR it into AAR_INTEN and expose the resulting mask as the
INTENSET readback value. -/
def nrf_aar_regw_sideeffects_INTENSET (s : AARState) : AARState :=
  if s.INTENSET ≠ 0 then
    let inten := s.inten ||| s.INTENSET
    { s with inten := inten, INTENSET := inten }
  else s

/-- nrf_aar_regw_sideeffects_INTENCLR: if the written INTENCLR value is
nonzero, clear those bits from AAR_INTEN, expose the resulting mask as the
INTENSET readback value, and reset INTENCLR to zero. -/
def nrf_aar_regw_sideeffects_INTENCLR (s : AARState) : AARState :=
  if s.INTENCLR ≠ 0 then
    let inten := s.inten &&& (UINT32_MASK ^^^ s.INTENCLR)
    { s with inten := inten, INTENSET := inten, INTENCLR := 0 }
  else s

/-- A firmware write of v to the INTENSET register: the uint32 store
followed by its side-effect handler. -/
def writeINTENSET (v : Nat) (s : AARState) : AARState :=
  nrf_aar_regw_sideeffects_INTENSET { s with INTENSET := v % UINT32_MOD }

/-- A firmware write of v to the INTENCLR register: the uint32 store
followed by its side-effect handler. -/
def writeINTENCLR (v : Nat) (s : AARState) : AARState :=
  nrf_aar_regw_sideeffects_INTENCLR { s with INTENCLR := v % UINT32_MOD }

/-- The externally triggerable operations on the peripheral: the START and
STOP tasks, the scheduler firing the completion, the two interrupt-mask
writes, and plain stores to the configuration registers. -/
inductive AAROp where
  | start (now : Nat)
  | stop
  | fire
  | intenset (v : Nat)
  | intenclr (v : Nat)
  | writeENABLE (v : Nat)
  | writeNIRK (v : Nat)

/-- One step of the peripheral under an operation; the scheduler invokes
the completion callback only when Timer_AAR is not TIME_NEVER. -/
def step (env : AAREnv) (s : AARState) : AAROp → AARState
  | .start now => nrf_aar_TASK_START env now s
  | .stop => (nrf_aar_TASK_STOP s).1
  | .fire => if s.timer = none then s else (nrf_aar_timer_triggered s).1
  | .intenset v => writeINTENSET v s
  | .intenclr v => writeINTENCLR v s
  | .writeENABLE v => { s with ENABLE := v % UINT32_MOD }
  | .writeNIRK v => { s with NIRK := v % UINT32_MOD }

/-- A state reachable from reset by some sequence of operations. -/
def Reachable (env : AAREnv) (s : AARState) : Prop :=
  ∃ ops : List AAROp, s = ops.foldl (step env) nrf_aar_init

/-- A trivial environment: AES returns the zero block, all memory zero
(so the address is not resolvable, its prand being zero). -/
def env0 : AAREnv := ⟨fun _ _ => fun _ => 0, fun _ => 0, fun _ _ => 0⟩

/-- An environment in which key index 1 (and no earlier key) matches: the
address holds hash 7 and a resolvable prand 0x400000, and the black-box
AES yields hash_check 7 exactly on the key whose first byte is 1. -/
def env2 : AAREnv :=
  { aes := fun key _ => if key 0 = 1 then (fun j => if j = 15 then 7 else 0) else fun _ => 0,
    mem := fun k => if k = 3 then 7 else if k = 8 then 64 else 0,
    irk := fun i j => if j = 0 then i else 0 }

/-- A concrete enabled state with a resolution in flight. -/
def s_run : AARState :=
  { nrf_aar_init with ENABLE := 3, NIRK := 2, running := true,
                      timer := some 100, matching := some 0 }

/-- A concrete enabled idle state. -/
def s_en : AARState := { nrf_aar_init with ENABLE := 3, NIRK := 4 }

/-- A concrete state whose latched result is "no match". -/
def s_nm : AARState :=
  { nrf_aar_init with running := true, timer := some 5, matching := none, STATUS := 9 }

theorem lor_self_right (a v : Nat) : a ||| v ||| v = a ||| v :=
  Nat.eq_of_testBit_eq fun i => by
    simp [Nat.testBit_lor, Bool.or_assoc]

theorem land_self_right (a m : Nat) : a &&& m &&& m = a &&& m :=
  Nat.eq_of_testBit_eq fun i => by
    simp [Nat.testBit_land, Bool.and_assoc]

/-- Structure of a successful run of the matching loop: a returned match
index k lies in the scanned range, the returned count is k + 1, key k
matched the hash, and no earlier scanned key did. -/
theorem aar_loop_match (env : AAREnv) (hash : Nat) :
    ∀ r i k, (aar_loop env hash i r).good_irk = some k →
      i ≤ k ∧ (aar_loop env hash i r).n_irks = k + 1 ∧
      hash = keyHashCheck env k ∧
      ∀ j, i ≤ j → j < k → hash ≠ keyHashCheck env j := by
  intro r
  induction r with
  | zero =>
    intro i k h
    simp [aar_loop] at h
  | succ r ih =>
    intro i k h
    by_cases hm : hash = keyHashCheck env i
    · simp only [aar_loop, if_pos hm] at h ⊢
      obtain rfl : i = k := by simpa using h
      refine ⟨Nat.le_refl i, rfl, hm, ?_⟩
      intro j hij hji
      exact absurd (Nat.lt_of_le_of_lt hij hji) (Nat.lt_irrefl i)
    · simp only [aar_loop, if_neg hm] at h ⊢
      obtain ⟨hik, hn, hk, hlt⟩ := ih (i + 1) k h
      refine ⟨Nat.le_of_succ_le hik, hn, hk, ?_⟩
      intro j hij hji
      rcases Nat.eq_or_lt_of_le hij with heq | hgt
      · exact heq ▸ hm
      · exact hlt j hgt hji

/-- C2: if resolve returns a matched index k, the returned keysExamined is
k + 1, key k's recomputed 24-bit hash_check equals the address's 24-bit
hash, and no key at a smaller index has a matching hash_check. -/
theorem C2_resolve_first_match (env : AAREnv) (nirk k : Nat)
    (h : (nrf_aar_resolve env nirk).good_irk = some k) :
    (nrf_aar_resolve env nirk).n_irks = k + 1 ∧
    keyHashCheck env k = hashOf env ∧
    ∀ j, j < k → keyHashCheck env j ≠ hashOf env := by
  by_cases hp : prandOf env >>> 22 = 1
  · have hres : nrf_aar_resolve env nirk = aar_loop env (hashOf env) 0 nirk := by
      simp [nrf_aar_resolve, hp]
    rw [hres] at h ⊢
    obtain ⟨-, hn, hh, hlt⟩ := aar_loop_match env (hashOf env) nirk 0 k h
    exact ⟨hn, hh.symm, fun j hj hkeq => hlt j (Nat.zero_le j) hj hkeq.symm⟩
  · have hres : nrf_aar_resolve env nirk = ⟨none, nirk, 0⟩ := by
      simp [nrf_aar_resolve, hp]
    rw [hres] at h
    exact absurd h (by simp)

theorem C2_resolve_first_match_witness :
    (nrf_aar_resolve env2 3).n_irks = 1 + 1 ∧
    keyHashCheck env2 1 = hashOf env2 ∧
    ∀ j, j < 1 → keyHashCheck env2 j ≠ hashOf env2 :=
  C2_resolve_first_match env2 3 1 (by decide)

/-- C3: if the top 2 bits of prand are not 01, resolve returns no match,
keysExamined equal to the key-list length NIRK, and zero AES calls. -/
theorem C3_not_resolvable (env : AAREnv) (nirk : Nat)
    (h : prandOf env >>> 22 ≠ 1) :
    nrf_aar_resolve env nirk = ⟨none, nirk, 0⟩ := by
  simp [nrf_aar_resolve, h]

theorem C3_not_resolvable_witness :
    prandOf env0 >>> 22 ≠ 1 ∧ nrf_aar_resolve env0 5 = ⟨none, 5, 0⟩ :=
  ⟨by decide, C3_not_resolvable env0 5 (by decide)⟩

/-- C1 counterexample: a Start issued while the peripheral is enabled and
already Running is not a no-op — it changes the pending completion time
and the latched result. -/
theorem C1_start_counterexample :
    s_run.running = true ∧ s_run.ENABLE = 3 ∧
    nrf_aar_TASK_START env0 50 s_run ≠ s_run ∧
    (nrf_aar_TASK_START env0 50 s_run).timer ≠ s_run.timer := by
  decide

/-- C1 (amended): Start is a no-op exactly when the peripheral is not
enabled; the code does not test the running flag, so an enabled Start —
even while Running — re-runs the resolver, overwrites the latched result,
and reschedules the completion time. -/
theorem C1_start_gating (env : AAREnv) (now : Nat) (s : AARState) :
    (s.ENABLE ≠ 3 → nrf_aar_TASK_START env now s = s) ∧
    (s.ENABLE = 3 →
      nrf_aar_TASK_START env now s =
        { s with running := true,
                 matching := (nrf_aar_resolve env s.NIRK).good_irk,
                 timer := some (now + 1 + 6 * (nrf_aar_resolve env s.NIRK).n_irks) }) := by
  constructor
  · intro h
    simp [nrf_aar_TASK_START, h]
  · intro h
    simp [nrf_aar_TASK_START, h]

theorem C1_start_gating_witness :
    nrf_aar_TASK_START env0 7 nrf_aar_init = nrf_aar_init ∧
    nrf_aar_TASK_START env0 50 s_run =
      { s_run with running := true,
                   matching := (nrf_aar_resolve env0 s_run.NIRK).good_irk,
                   timer := some (50 + 1 + 6 * (nrf_aar_resolve env0 s_run.NIRK).n_irks) } :=
  ⟨(C1_start_gating env0 7 nrf_aar_init).1 (by decide),
   (C1_start_gating env0 50 s_run).2 (by decide)⟩

/-- C4: an accepted Start (ENABLE = 3) schedules the completion exactly at
now + 1 + 6 * keysExamined, with keysExamined the count the resolution
engine returned for this Start. -/
theorem C4_timer_schedule (env : AAREnv) (now : Nat) (s : AARState)
    (h : s.ENABLE = 3) :
    (nrf_aar_TASK_START env now s).timer
      = some (now + 1 + 6 * (nrf_aar_resolve env s.NIRK).n_irks) := by
  simp [nrf_aar_TASK_START, h]

theorem C4_timer_schedule_witness :
    (nrf_aar_TASK_START env0 10 s_en).timer
      = some (10 + 1 + 6 * (nrf_aar_resolve env0 s_en.NIRK).n_irks) :=
  C4_timer_schedule env0 10 s_en (by decide)

/-- C5: the completion callback performs, in program order, on a latched
match the STATUS write, then the RESOLVED signal, then the END signal, and
on no match the NOTRESOLVED signal then the END signal — so exactly one of
RESOLVED/NOTRESOLVED fires, its flag becomes observable strictly before
END's, and the matched index reaches STATUS before RESOLVED fires. -/
theorem C5_completion_order (s : AARState) :
    (nrf_aar_timer_triggered s).2 =
      (match s.matching with
       | some idx => [AARAction.writeSTATUS idx, AARAction.setRESOLVED, AARAction.setEND]
       | none => [AARAction.setNOTRESOLVED, AARAction.setEND]) ∧
    (nrf_aar_timer_triggered s).1.STATUS =
      (match s.matching with
       | some idx => idx
       | none => s.STATUS) := by
  cases h : s.matching <;>
    simp [nrf_aar_timer_triggered, h, signal_EVENTS_RESOLVED,
          signal_EVENTS_NOTRESOLVED, signal_EVENTS_END]

/-- C6: Stop while Running cancels the pending completion (the timer is
cleared, so the scheduler's fire step is inert afterwards) and signals END
exactly once, leaving the RESOLVED/NOTRESOLVED flags alone; Stop while not
Running returns the state unchanged with no action. -/
theorem C6_stop (env : AAREnv) (s : AARState) :
    (s.running = true →
      (nrf_aar_TASK_STOP s).1.running = false ∧
      (nrf_aar_TASK_STOP s).1.timer = none ∧
      (nrf_aar_TASK_STOP s).2 = [AARAction.setEND] ∧
      (nrf_aar_TASK_STOP s).1.EVENTS_RESOLVED = s.EVENTS_RESOLVED ∧
      (nrf_aar_TASK_STOP s).1.EVENTS_NOTRESOLVED = s.EVENTS_NOTRESOLVED ∧
      step env (nrf_aar_TASK_STOP s).1 AAROp.fire = (nrf_aar_TASK_STOP s).1) ∧
    (s.running = false → nrf_aar_TASK_STOP s = (s, [])) := by
  constructor
  · intro h
    simp [nrf_aar_TASK_STOP, h, signal_EVENTS_END, step]
  · intro h
    simp [nrf_aar_TASK_STOP, h]

theorem C6_stop_witness :
    ((nrf_aar_TASK_STOP s_run).1.running = false ∧
     (nrf_aar_TASK_STOP s_run).1.timer = none ∧
     (nrf_aar_TASK_STOP s_run).2 = [AARAction.setEND] ∧
     (nrf_aar_TASK_STOP s_run).1.EVENTS_RESOLVED = s_run.EVENTS_RESOLVED ∧
     (nrf_aar_TASK_STOP s_run).1.EVENTS_NOTRESOLVED = s_run.EVENTS_NOTRESOLVED ∧
     step env0 (nrf_aar_TASK_STOP s_run).1 AAROp.fire = (nrf_aar_TASK_STOP s_run).1) ∧
    nrf_aar_TASK_STOP nrf_aar_init = (nrf_aar_init, []) :=
  ⟨(C6_stop env0 s_run).1 (by decide), (C6_stop env0 nrf_aar_init).2 (by decide)⟩

/-- C7: STATUS is never written by Stop, by a completion whose latched
result is "no match", or by Start — only a completed match writes it. -/
theorem C7_status_frame (env : AAREnv) (now : Nat) (s : AARState) :
    (nrf_aar_TASK_STOP s).1.STATUS = s.STATUS ∧
    (s.matching = none → (nrf_aar_timer_triggered s).1.STATUS = s.STATUS) ∧
    (nrf_aar_TASK_START env now s).STATUS = s.STATUS := by
  refine ⟨?_, ?_, ?_⟩
  · by_cases h : s.running <;>
      simp [nrf_aar_TASK_STOP, h, signal_EVENTS_END]
  · intro h
    simp [nrf_aar_timer_triggered, h, signal_EVENTS_NOTRESOLVED, signal_EVENTS_END]
  · by_cases h : s.ENABLE = 3 <;>
      simp [nrf_aar_TASK_START, h]

theorem C7_status_frame_witness :
    (nrf_aar_TASK_STOP s_nm).1.STATUS = s_nm.STATUS ∧
    (nrf_aar_timer_triggered s_nm).1.STATUS = s_nm.STATUS ∧
    (nrf_aar_TASK_START env0 0 s_nm).STATUS = s_nm.STATUS :=
  ⟨(C7_status_frame env0 0 s_nm).1,
   (C7_status_frame env0 0 s_nm).2.1 (by decide),
   (C7_status_frame env0 0 s_nm).2.2⟩

/-- C8: for a nonzero uint32 value v, writing v to INTENSET twice leaves
the same interrupt mask as writing it once, and likewise for INTENCLR;
after an effective INTENCLR write the INTENCLR register reads back zero
and the INTENSET register reads back the resulting mask (as it also does
after an INTENSET write). -/
theorem C8_inten_idempotent (s : AARState) (v : Nat)
    (h0 : v ≠ 0) (hlt : v < UINT32_MOD) :
    (writeINTENSET v (writeINTENSET v s)).inten = (writeINTENSET v s).inten ∧
    (writeINTENCLR v (writeINTENCLR v s)).inten = (writeINTENCLR v s).inten ∧
    (writeINTENCLR v s).INTENCLR = 0 ∧
    (writeINTENSET v s).INTENSET = (writeINTENSET v s).inten ∧
    (writeINTENCLR v s).INTENSET = (writeINTENCLR v s).inten := by
  have hv : v % UINT32_MOD = v := Nat.mod_eq_of_lt hlt
  refine ⟨?_, ?_, ?_, ?_, ?_⟩ <;>
    simp [writeINTENSET, writeINTENCLR, nrf_aar_regw_sideeffects_INTENSET,
          nrf_aar_regw_sideeffects_INTENCLR, hv, h0,
          lor_self_right, land_self_right]

theorem C8_inten_idempotent_witness :
    (6 : Nat) ≠ 0 ∧
    ((writeINTENSET 6 (writeINTENSET 6 s_en)).inten = (writeINTENSET 6 s_en).inten ∧
     (writeINTENCLR 6 (writeINTENCLR 6 s_en)).inten = (writeINTENCLR 6 s_en).inten ∧
     (writeINTENCLR 6 s_en).INTENCLR = 0 ∧
     (writeINTENSET 6 s_en).INTENSET = (writeINTENSET 6 s_en).inten ∧
     (writeINTENCLR 6 s_en).INTENSET = (writeINTENCLR 6 s_en).inten) :=
  ⟨by decide, C8_inten_idempotent s_en 6 (by decide) (by decide)⟩

/-- Every single operation preserves the timer/running coupling. -/
theorem step_timer_running (env : AAREnv) (s : AARState) (op : AAROp)
    (h : s.timer ≠ none ↔ s.running = true) :
    (step env s op).timer ≠ none ↔ (step env s op).running = true := by
  cases op with
  | start now =>
    by_cases he : s.ENABLE = 3
    · simp [step, nrf_aar_TASK_START, he]
    · simpa [step, nrf_aar_TASK_START, he] using h
  | stop =>
    by_cases hr : s.running
    · simp [step, nrf_aar_TASK_STOP, hr, signal_EVENTS_END]
    · simpa [step, nrf_aar_TASK_STOP, hr] using h
  | fire =>
    by_cases ht : s.timer = none
    · simpa [step, ht] using h
    · cases hm : s.matching <;>
        simp [step, ht, nrf_aar_timer_triggered, hm, signal_EVENTS_RESOLVED,
              signal_EVENTS_NOTRESOLVED, signal_EVENTS_END]
  | intenset v =>
    by_cases hv : v % UINT32_MOD = 0 <;>
      simpa [step, writeINTENSET, nrf_aar_regw_sideeffects_INTENSET, hv] using h
  | intenclr v =>
    by_cases hv : v % UINT32_MOD = 0 <;>
      simpa [step, writeINTENCLR, nrf_aar_regw_sideeffects_INTENCLR, hv] using h
  | writeENABLE v => simpa [step] using h
  | writeNIRK v => simpa [step] using h

/-- C9: in every state reachable from reset by start, stop, completion
firing, interrupt-mask writes and configuration writes, the pending
completion time is set (not TIME_NEVER) exactly when the running flag is
true. -/
theorem C9_timer_running_inv (env : AAREnv) (s : AARState)
    (h : Reachable env s) :
    s.timer ≠ none ↔ s.running = true := by
  obtain ⟨ops, rfl⟩ := h
  suffices H : ∀ (l : List AAROp) (t : AARState),
      (t.timer ≠ none ↔ t.running = true) →
      ((l.foldl (step env) t).timer ≠ none ↔
        (l.foldl (step env) t).running = true) by
    exact H ops nrf_aar_init (by simp [nrf_aar_init])
  intro l
  induction l with
  | nil => exact fun t ht => ht
  | cons op l ih =>
    intro t ht
    exact ih (step env t op) (step_timer_running env t op ht)

theorem C9_timer_running_inv_witness :
    (nrf_aar_init.timer ≠ none ↔ nrf_aar_init.running = true) :=
  C9_timer_running_inv env0 nrf_aar_init ⟨[], rfl⟩

/-- C10: the INTENSET/INTENCLR side-effect handlers do nothing when the
written value is zero: the interrupt mask is untouched and the registers
keep the stored zero instead of being refreshed to reflect the mask. -/
theorem C10_zero_write_noop (s : AARState) :
    (s.INTENSET = 0 → nrf_aar_regw_sideeffects_INTENSET s = s) ∧
    (s.INTENCLR = 0 → nrf_aar_regw_sideeffects_INTENCLR s = s) ∧
    writeINTENSET 0 s = { s with INTENSET := 0 } ∧
    writeINTENCLR 0 s = { s with INTENCLR := 0 } := by
  refine ⟨?_, ?_, ?_, ?_⟩
  · intro h
    simp [nrf_aar_regw_sideeffects_INTENSET, h]
  · intro h
    simp [nrf_aar_regw_sideeffects_INTENCLR, h]
  · simp [writeINTENSET, nrf_aar_regw_sideeffects_INTENSET, UINT32_MOD]
  · simp [writeINTENCLR, nrf_aar_regw_sideeffects_INTENCLR, UINT32_MOD]

theorem C10_zero_write_noop_witness :
    nrf_aar_regw_sideeffects_INTENSET nrf_aar_init = nrf_aar_init ∧
    nrf_aar_regw_sideeffects_INTENCLR nrf_aar_init = nrf_aar_init ∧
    writeINTENSET 0 nrf_aar_init = { nrf_aar_init with INTENSET := 0 } ∧
    writeINTENCLR 0 nrf_aar_init = { nrf_aar_init with INTENCLR := 0 } :=
  ⟨(C10_zero_write_noop nrf_aar_init).1 rfl,
   (C10_zero_write_noop nrf_aar_init).2.1 rfl,
   (C10_zero_write_noop nrf_aar_init).2.2.1,
   (C10_zero_write_noop nrf_aar_init).2.2.2⟩
